import Mathlib

/-!
Verification of `tutorial_prototype` (oopt-gnpy): a shallow embedding of the
concurrency-validation harness (`test_concurrency.py`) and of the benchmark
script (`benchmark.py`), with theorems settling the claims of the spec about them.

Python floats are modelled as exact rationals (`ℚ`); dictionaries as
association lists; fallible calls as `Except`; the external GNPy engine
(loading, network design, transmission simulation) as opaque parameters,
exactly as the spec treats it (an external black box).
-/

/-! ## Data model: simulation results (return value of `_run_single_simulation`)

The worker returns a dict with keys `avg_gsnr`, `avg_osnr`, `gsnr_values`,
`osnr_values` (test_concurrency.py lines 70-75). -/

structure SimResult where
  avg_gsnr : ℚ
  avg_osnr : ℚ
  gsnr_values : List ℚ
  osnr_values : List ℚ
deriving DecidableEq

/-! ## numpy.allclose

The harness compares series with `numpy.allclose(a, b, atol=...)`.  the documented
numpy semantics: elementwise `|a - b| <= atol + rtol * |b|`, where `rtol`
keeps its default value `1e-05` because the harness never passes `rtol`.
Arrays of unequal length do not compare close (numpy would fail to broadcast;
the harness only ever compares equal-length series). -/

def npRtol : ℚ := 1/100000

def isClose (atol x y : ℚ) : Bool := decide (|x - y| ≤ atol + npRtol * |y|)

def allclose (a b : List ℚ) (atol : ℚ) : Bool :=
  (a.length == b.length) && (a.zip b).all (fun p => isClose atol p.1 p.2)

/-! ## The two tolerances actually passed to allclose

`test_process_pool_isolation` passes `atol=1e-6` (lines 128-129, 167);
`test_deep_copy_thread_local` passes `atol=1e-4` (lines 290, 330). -/

def processAtol : ℚ := 1/1000000

def threadAtol : ℚ := 1/10000

/-- Per-job matched verdict of the process-pool same-parameters check
(test_concurrency.py lines 128-130): GSNR series and OSNR series each
allclose to the reference at `atol=1e-6`.  The scalar `avg_gsnr`/`avg_osnr`
fields are printed but never compared. -/
def pp_matched (result reference : SimResult) : Bool :=
  allclose result.gsnr_values reference.gsnr_values processAtol &&
  allclose result.osnr_values reference.osnr_values processAtol

/-- Per-job matched verdict of the thread (shared-memory) checks
(test_concurrency.py lines 290 and 330): only the GSNR series is compared,
at `atol=1e-4`. -/
def thread_gsnr_match (result reference : SimResult) : Bool :=
  allclose result.gsnr_values reference.gsnr_values threadAtol

/-- The Verifier contract as the spec words it (for comparison with the
`pp_matched` of the code): every element of every numeric series within a fixed
absolute tolerance of the reference, and the two scalar metrics within that
same tolerance. -/
def specMatched (result reference : SimResult) (tol : ℚ) : Bool :=
  (result.gsnr_values.length == reference.gsnr_values.length) &&
  (result.gsnr_values.zip reference.gsnr_values).all
    (fun p => decide (|p.1 - p.2| ≤ tol)) &&
  (result.osnr_values.length == reference.osnr_values.length) &&
  (result.osnr_values.zip reference.osnr_values).all
    (fun p => decide (|p.1 - p.2| ≤ tol)) &&
  decide (|result.avg_gsnr - reference.avg_gsnr| ≤ tol) &&
  decide (|result.avg_osnr - reference.avg_osnr| ≤ tol)

/-! ## The differing-powers distinctness check and the overall verdict

test_concurrency.py lines 150-157: `all_same = all(abs(g - gsnr_vals[0]) <
1e-6 for g in gsnr_vals)`; when `all_same` holds the code only prints a
WARNING.  Line 176: `overall = all_match and diff_match`. -/

/-- `all(abs(g - gsnr_vals[0]) < 1e-6 for g in gsnr_vals)`.  The lazy Python
generator never evaluates `gsnr_vals[0]` when the list is empty, and `all`
of an empty generator is `True`. -/
def allSameGsnr (gsnr_vals : List ℚ) : Bool :=
  match gsnr_vals with
  | [] => true
  | g0 :: _ => gsnr_vals.all (fun g => decide (|g - g0| < 1/1000000))

/-- Overall verdict of `test_process_pool_isolation` (lines 126-178) as a
function of the collected results: `all_match` folds the same-parameters
per-job checks, `diff_match` folds the differing-powers reference-match
checks (GSNR series only, line 167), and `overall = all_match and
diff_match`.  The `all_same` distinctness probe (lines 150-157) prints a
warning but is not part of `overall`. -/
def test_process_pool_verdict (results : List SimResult) (reference : SimResult)
    (results_diff references_diff : List SimResult) : Bool :=
  let all_match := results.all (fun r => pp_matched r reference)
  let diff_match := (results_diff.zip references_diff).all
    (fun p => allclose p.1.gsnr_values p.2.gsnr_values processAtol)
  all_match && diff_match

/-! ## The reference ("oracle") loop

test_concurrency.py lines 159-163: `for p in powers: ref =
_run_single_simulation(config, power_dbm=p); references_diff.append(ref)`.
Neither the loop nor `_run_single_simulation` (lines 46-75) contains any
try/except: an exception raised by the engine for one power propagates and
aborts the whole loop.  The engine is abstracted as a function from the
power override to `Except`. -/

def runReferences (engine : ℚ → Except String SimResult) :
    List ℚ → Except String (List SimResult)
  | [] => .ok []
  | p :: ps =>
    match engine p with
    | .error e => .error e
    | .ok r =>
      match runReferences engine ps with
      | .error e => .error e
      | .ok rs => .ok (r :: rs)

/-- Modelled from the spec: the failure semantics of the Reference Oracle as the
spec words them — "if the Engine Adapter raises a computation failure for a
Job, the Oracle records an error result for that Job and continues with the
next Job".  Under that contract the oracle returns one outcome per Job. -/
def specOracle (engine : ℚ → Except String SimResult) (powers : List ℚ) :
    List (Except String SimResult) :=
  powers.map engine

/-- A concrete engine that fails on power -2.0 and succeeds elsewhere, used
to exercise the failure path of the reference loop. -/
def boomEngine (p : ℚ) : Except String SimResult :=
  if p = -2 then .error "boom" else .ok ⟨10, 20, [10], [20]⟩

example : runReferences boomEngine [-2, -1] = .error "boom" := by
  simp [runReferences, boomEngine]

example : (specOracle boomEngine [-2, -1]).length = 2 := by
  simp [specOracle]

/-! ## The shared-memory (thread) worker `_thread_worker`

test_concurrency.py lines 187-232.  `SimParams._shared_dict` is the global
configuration store, modelled as an association list of rationals (a Python
dict of settings); `deepcopy` of such a value is the value itself under
value semantics.  The fallible steps inside the `try` block are the two
loads, the transceiver indexing, `designed_network` and
`transmission_simulation`; an execution is parametrised by which step (if
any) raises, by the mutations the engine makes to the shared store, and by the
result the engine produces on success. -/

abbrev Store := List (String × ℚ)

def emptyStore : Store := []

/-- The fallible steps of the try block of `_thread_worker`, in program order. -/
inductive WStep
  | loadEq
  | loadNet
  | findTrx
  | design
  | sim
deriving DecidableEq

/-- A value stored in the shared results registry `results_dict`. -/
inductive EVal
  | num (q : ℚ)
  | series (qs : List ℚ)
  | str (s : String)
deriving DecidableEq

/-- A registry entry is a Python dict: an association list of keys to values. -/
abbrev Entry := List (String × EVal)

/-- The success entry: the mapping with keys avg_gsnr, avg_osnr, gsnr_values
and osnr_values (lines 216-221). -/
def resultEntry (r : SimResult) : Entry :=
  [("avg_gsnr", .num r.avg_gsnr), ("avg_osnr", .num r.avg_osnr),
   ("gsnr_values", .series r.gsnr_values), ("osnr_values", .series r.osnr_values)]

/-- The failure entry: the mapping with single key error holding str(e)
(line 228). -/
def errorEntry (msg : String) : Entry := [("error", .str msg)]

/-- One write to `results_dict`: at which index, what entry, and whether the
write happened inside `with lock:`. -/
structure RegistryWrite where
  regIndex : ℕ
  entry : Entry
  underLock : Bool
deriving DecidableEq

/-- State threaded through the try block: the shared store, the thread-local
backup (`_thread_local.sim_params_backup`, absent until line 198 runs), and
the value of the store observed just before the reset (line 199), recorded
for the round-trip property. -/
structure TryState where
  store : Store
  backup : Option Store
  beforeReset : Option Store
deriving DecidableEq

/-- The try block of `_thread_worker` (lines 193-221): load equipment, load
network, take the deep-copy backup, reset the store via
`SimParams.set_params({})`, index the transceivers, run `designed_network`
and `transmission_simulation` (each may read and mutate the shared store),
and build the result dict.  Returns the state at exit together with the
outcome (`.error` models a raised exception caught by the `except` clause). -/
def threadWorkerTry (store0 : Store) (fails : Option WStep)
    (mutDesign mutSim : Store → Store) (res : SimResult) (msg : String) :
    TryState × Except String SimResult :=
  let s : TryState := ⟨store0, none, none⟩
  if fails = some .loadEq then (s, .error msg) else
  if fails = some .loadNet then (s, .error msg) else
  let s : TryState := ⟨emptyStore, some store0, some store0⟩
  if fails = some .findTrx then (s, .error msg) else
  let s : TryState := { s with store := mutDesign s.store }
  if fails = some .design then (s, .error msg) else
  let s : TryState := { s with store := mutSim s.store }
  if fails = some .sim then (s, .error msg) else
  (s, .ok res)

/-- Observable trace of one `_thread_worker` execution: the final value of
`SimParams._shared_dict`, the writes made to `results_dict`, whether the
backup attribute was set, how many times the restore assignment (line 232)
ran, and the store values observed before the reset and after the restore. -/
structure WorkerTrace where
  finalStore : Store
  writes : List RegistryWrite
  backupTaken : Bool
  restoreCount : ℕ
  storeBeforeReset : Option Store
  storeAfterRestore : Option Store
deriving DecidableEq

/-- `_thread_worker` (lines 187-232): run the try block; on success write the
result entry at `index` under the lock (lines 223-224), on exception write
the error entry at `index` under the lock (lines 226-228); finally, restore
`SimParams._shared_dict` from the thread-local backup — but only if the
backup attribute exists (`hasattr`, lines 229-232). -/
def threadWorker (store0 : Store) (index : ℕ) (fails : Option WStep)
    (mutDesign mutSim : Store → Store) (res : SimResult) (msg : String) :
    WorkerTrace :=
  let out := threadWorkerTry store0 fails mutDesign mutSim res msg
  let writes := match out.2 with
    | .ok r => [⟨index, resultEntry r, true⟩]
    | .error e => [⟨index, errorEntry e, true⟩]
  match out.1.backup with
  | some b =>
    ⟨b, writes, true, 1, out.1.beforeReset, some b⟩
  | none =>
    ⟨out.1.store, writes, false, 0, out.1.beforeReset, none⟩

example :
    (threadWorker [("k", 1)] 0 (some .loadEq) id id ⟨10, 20, [10], [20]⟩
      "boom").restoreCount = 0 := by
  simp [threadWorker, threadWorkerTry]

example :
    (threadWorker [("k", 1)] 2 none id id ⟨10, 20, [10], [20]⟩
      "boom").storeAfterRestore = some [("k", 1)] := by
  simp [threadWorker, threadWorkerTry]

/-! ## Collecting worker results

test_concurrency.py lines 273-275: `for t in threads: t.join()` — `join()`
is called with no timeout, so it blocks until the thread terminates; a
thread that never terminates blocks the collection forever (modelled as
`none`).  The process-pool side (`pool.map`, line 115) likewise blocks with
no timeout until every worker returns.  The termination status of a worker is
`some` entry (it finished) or `none` (it never returns). -/

def collectJoin : List (Option Entry) → Option (List Entry)
  | [] => some []
  | none :: _ => none
  | some r :: rest => (collectJoin rest).map (fun l => r :: l)

/-! ## benchmark.py

`benchmark_network` (benchmark.py lines 70-134) loops `NUM_RUNS` times; each
run appends the equipment-load and network-load timings, then — when source
or destination is not preset — discovers the transceivers and returns early
when fewer than two exist; otherwise it times `designed_network` and
`transmission_simulation`, appending a float nan (modelled `none`) for a
phase that raises and skipping the simulation phase when the design phase
raised (`continue`).  Timings and phase outcomes are opaque parameters. -/

structure BNode where
  uid : String
  isTrx : Bool
deriving DecidableEq

/-- `_find_transceivers` (benchmark.py lines 57-59). -/
def find_transceivers (network : List BNode) : List String :=
  (network.filter (fun n => n.isTrx)).map (fun n => n.uid)

/-- The timing-lists dict built by `benchmark_network` (lines 75-80).  A
recorded float nan is modelled as `none`. -/
structure BenchResults where
  equipment_load : List (Option ℚ)
  network_load : List (Option ℚ)
  network_design : List (Option ℚ)
  transmission_sim : List (Option ℚ)
deriving DecidableEq

/-- The source/destination part of one BENCHMARKS configuration entry. -/
structure BenchConfig where
  source : Option String
  destination : Option String
deriving DecidableEq

def NUM_RUNS : ℕ := 3

/-- The run loop of `benchmark_network` over the remaining run indices.
`eqptTime`/`netTime` give the load timings of each run; `designRun`/`simRun`
give the design and simulation outcome of each run (elapsed time, or the raised
exception). -/
def benchGo (network : List BNode) (cfg : BenchConfig)
    (eqptTime netTime : ℕ → ℚ) (designRun simRun : ℕ → Except String ℚ) :
    List ℕ → BenchResults → BenchResults
  | [], acc => acc
  | run :: rest, acc =>
    let acc1 : BenchResults :=
      { acc with
        equipment_load := acc.equipment_load ++ [some (eqptTime run)],
        network_load := acc.network_load ++ [some (netTime run)] }
    if (cfg.source.isNone || cfg.destination.isNone) &&
        decide ((find_transceivers network).length < 2) then
      acc1
    else
      match designRun run with
      | .error _ =>
        benchGo network cfg eqptTime netTime designRun simRun rest
          { acc1 with network_design := acc1.network_design ++ [none] }
      | .ok tDesign =>
        let acc2 : BenchResults :=
          { acc1 with network_design := acc1.network_design ++ [some tDesign] }
        match simRun run with
        | .error _ =>
          benchGo network cfg eqptTime netTime designRun simRun rest
            { acc2 with transmission_sim := acc2.transmission_sim ++ [none] }
        | .ok tSim =>
          benchGo network cfg eqptTime netTime designRun simRun rest
            { acc2 with transmission_sim := acc2.transmission_sim ++ [some tSim] }

/-- `benchmark_network` (benchmark.py lines 70-134). -/
def benchmark_network (network : List BNode) (cfg : BenchConfig)
    (eqptTime netTime : ℕ → ℚ) (designRun simRun : ℕ → Except String ℚ) :
    BenchResults :=
  benchGo network cfg eqptTime netTime designRun simRun
    (List.range NUM_RUNS) ⟨[], [], [], []⟩

/-- `_run_single_simulation` (test_concurrency.py lines 46-75): loads
equipment and network, resets SimParams, then unconditionally indexes
`trxs[0]` and `trxs[1]` — raising IndexError when the network has fewer
than two transceivers — and otherwise hands source and destination to the
engine (`designed_network` + `transmission_simulation`, abstracted). -/
def run_single_simulation (network : List BNode)
    (engine : String → String → Except String SimResult) :
    Except String SimResult :=
  let trxs := find_transceivers network
  match trxs with
  | source :: destination :: _ => engine source destination
  | _ => .error "IndexError: list index out of range"

/-! ## `_fmt` (benchmark.py lines 137-146)

`clean = [v for v in values if v == v]` keeps exactly the non-NaN entries
(`v == v` is false only for NaN, modelled `none`).  The function prints
"N/A" when `clean` is empty; otherwise the mean of `clean` scaled to
milliseconds, together with the sample standard deviation of `clean` when
it has more than one element.  The standard deviation is `sqrt` of the
sample variance; `sqrt` is irrational, and since it is injective on
nonnegatives the model records the sample variance instead, which
determines the printed value. -/

def cleanTimes (values : List (Option ℚ)) : List ℚ := values.filterMap id

def listMean (xs : List ℚ) : ℚ := xs.sum / xs.length

/-- Sample variance `sum((x - mean)^2) / (len - 1)`, the square of
`statistics.stdev`. -/
def sampleVar (xs : List ℚ) : ℚ :=
  ((xs.map (fun x => (x - listMean xs) ^ 2)).sum) / (xs.length - 1 : ℕ)

/-- The information content of the return string of `_fmt`: "N/A", or the mean
in milliseconds, or the mean in milliseconds plus the spread of the clean
sample (carried as the sample variance). -/
inductive FmtResult
  | na
  | meanOnly (mean : ℚ)
  | meanStd (mean stdSq : ℚ)
deriving DecidableEq

/-- `_fmt` (benchmark.py lines 137-146). -/
def fmtTimes (values : List (Option ℚ)) : FmtResult :=
  let c := cleanTimes values
  if c = [] then .na
  else if 1 < c.length then .meanStd (listMean c * 1000) (sampleVar c)
  else .meanOnly (listMean c * 1000)

example : fmtTimes [none, none] = .na := by simp [fmtTimes, cleanTimes]
example : fmtTimes [some 2, none] = .meanOnly 2000 := by
  simp [fmtTimes, cleanTimes, listMean]
  norm_num

/-! ## Concrete instances used by counterexamples and witnesses -/

/-- A simple simulation result used as a generic concrete value. -/
def rSame : SimResult := ⟨10, 20, [10], [20]⟩

/-- A result deviating from `refC1` by 5e-6 on every field: beyond the
fixed absolute tolerance 1e-6, yet allclose at reference magnitude 100
because of the default relative tolerance. -/
def rC1 : SimResult :=
  ⟨100 + 1/200000, 100 + 1/200000, [100 + 1/200000], [100 + 1/200000]⟩

def refC1 : SimResult := ⟨100, 100, [100], [100]⟩

/-- A result whose GSNR deviates from `refC5` by 1.5e-4: within the thread
check bound (1e-4 + 1e-5 * 10 = 2e-4) but beyond the 1e-6 bound
(1e-6 + 1e-5 * 10 = 1.01e-4). -/
def rC5 : SimResult := ⟨10 + 3/20000, 0, [10 + 3/20000], []⟩

def refC5 : SimResult := ⟨10, 0, [10], []⟩

/-- A network with a single transceiver. -/
def oneTrxNet : List BNode := [⟨"trx-A", true⟩, ⟨"fiber-1", false⟩]

/-! ## Helper lemmas -/

/-- `allclose` holds exactly when the two series are elementwise within
`atol + npRtol * |reference|` (equal lengths included), stated via
`List.Forall₂`. -/
theorem allclose_eq_true_iff (a b : List ℚ) (atol : ℚ) :
    allclose a b atol = true ↔
      List.Forall₂ (fun x y => |x - y| ≤ atol + npRtol * |y|) a b := by
  rw [List.forall₂_iff_zip]
  simp only [allclose, Bool.and_eq_true, beq_iff_eq, List.all_eq_true, isClose,
    decide_eq_true_eq]
  constructor
  · rintro ⟨h1, h2⟩
    exact ⟨h1, fun {x y} hxy => h2 (x, y) hxy⟩
  · rintro ⟨h1, h2⟩
    refine ⟨h1, fun p hp => ?_⟩
    obtain ⟨x, y⟩ := p
    exact h2 hp

/-- `allclose` is monotone in the absolute tolerance. -/
theorem allclose_mono_atol {a b : List ℚ} {t1 t2 : ℚ} (ht : t1 ≤ t2)
    (h : allclose a b t1 = true) : allclose a b t2 = true := by
  have hf := (allclose_eq_true_iff a b t1).mp h
  exact (allclose_eq_true_iff a b t2).mpr
    (hf.imp (fun x y hxy => le_trans hxy (by linarith)))

/-! ## Claim C1 -/

/-- Claim C1 counterexample: a result 5e-6 away from a reference of
magnitude 100 (on every series element and on both scalar averages) is
reported matched by the process-pool check, although 5e-6 exceeds the fixed
absolute tolerance 1e-6 — because allclose keeps the numpy default relative
tolerance 1e-5, and the scalar averages are never compared at all. -/
theorem C1_counterexample :
    pp_matched rC1 refC1 = true ∧ specMatched rC1 refC1 processAtol = false := by
  constructor
  · simp [pp_matched, rC1, refC1, allclose, isClose, npRtol, processAtol, abs_le]
    norm_num
  · simp [specMatched, rC1, refC1, processAtol, abs_le]
    norm_num

/-- Claim C1, corrected: the per-job matched verdict is true iff every
element of the GSNR series and every element of the OSNR series is within
`atol + 1e-5 * |reference|` of the corresponding reference element (numpy
allclose with `atol = 1e-6` and the default relative tolerance); the two
scalar metrics are not separately compared. -/
theorem C1_matched_iff (result reference : SimResult) :
    pp_matched result reference = true ↔
      (List.Forall₂ (fun x y => |x - y| ≤ processAtol + npRtol * |y|)
        result.gsnr_values reference.gsnr_values ∧
       List.Forall₂ (fun x y => |x - y| ≤ processAtol + npRtol * |y|)
        result.osnr_values reference.osnr_values) := by
  simp only [pp_matched, Bool.and_eq_true, allclose_eq_true_iff]

/-- Witness for C1: the corrected characterisation applied to a concrete
matching pair. -/
theorem C1_matched_iff_witness : pp_matched rSame rSame = true :=
  (C1_matched_iff rSame rSame).mpr
    ⟨List.Forall₂.cons (by norm_num [rSame, npRtol, processAtol]) List.Forall₂.nil,
     List.Forall₂.cons (by norm_num [rSame, npRtol, processAtol]) List.Forall₂.nil⟩

/-! ## Claim C2 -/

/-- Claim C2 counterexample: when the exception is raised before the backup
is taken (here: inside `load_equipments_and_configs`), the finally clause
runs but its `hasattr` guard skips the restore assignment, so the restore
executes zero times, not once. -/
theorem C2_counterexample :
    (threadWorker [("k", 1)] 0 (some .loadEq) id id rSame "boom").restoreCount
      = 0 ∧
    (threadWorker [("k", 1)] 0 (some .loadEq) id id rSame "boom").restoreCount
      ≠ 1 := by
  constructor <;> simp [threadWorker, threadWorkerTry]

/-- Claim C2, corrected: the restore assignment executes exactly once on
every exit path on which the backup was taken, and zero times when the
exception preceded the backup; the backup is missing exactly when the
failing step is one of the two loads that run before it. -/
theorem C2_restore_guard (store0 : Store) (index : ℕ) (fails : Option WStep)
    (mutDesign mutSim : Store → Store) (res : SimResult) (msg : String) :
    (threadWorker store0 index fails mutDesign mutSim res msg).restoreCount =
      (if (threadWorker store0 index fails mutDesign mutSim res msg).backupTaken
        then 1 else 0) ∧
    ((threadWorker store0 index fails mutDesign mutSim res msg).backupTaken = false ↔
      fails = some .loadEq ∨ fails = some .loadNet) := by
  cases fails with
  | none => simp [threadWorker, threadWorkerTry]
  | some step => cases step <;> simp [threadWorker, threadWorkerTry]

/-- Witness for C2: the corrected statement applied where the network load
raises, forcing the no-backup branch. -/
theorem C2_restore_guard_witness :
    (threadWorker [("k", 1)] 1 (some .loadNet) id id rSame "m").backupTaken
      = false :=
  (C2_restore_guard [("k", 1)] 1 (some .loadNet) id id rSame "m").2.mpr
    (Or.inr rfl)

/-! ## Claim C3 -/

/-- Claim C3 counterexample: with an engine failing on the first power, the
reference loop aborts with the propagated error instead of producing the
per-job outcome list (of length 2) that the spec-modelled oracle yields. -/
theorem C3_counterexample :
    runReferences boomEngine [-2, -1] = .error "boom" ∧
    (specOracle boomEngine [-2, -1]).length = 2 := by
  constructor
  · simp [runReferences, boomEngine]
  · simp [specOracle]

/-- Claim C3, corrected: if the Engine Adapter raises for any Job of the
batch, the sequential reference loop propagates an exception and aborts the
batch — it never records an error result and continues. -/
theorem C3_failure_aborts (engine : ℚ → Except String SimResult)
    (powers : List ℚ) (h : ∃ p ∈ powers, ∃ e, engine p = .error e) :
    ∃ e', runReferences engine powers = .error e' := by
  induction powers with
  | nil => simp at h
  | cons p ps ih =>
    rcases h with ⟨q, hq, e, he⟩
    rcases List.mem_cons.mp hq with rfl | hq'
    · exact ⟨e, by simp [runReferences, he]⟩
    · cases hep : engine p with
      | error e2 => exact ⟨e2, by simp [runReferences, hep]⟩
      | ok r =>
        rcases ih ⟨q, hq', e, he⟩ with ⟨e', he'⟩
        exact ⟨e', by simp [runReferences, hep, he']⟩

/-- Witness for C3: the corrected statement applied to the concrete failing
engine on a singleton batch. -/
theorem C3_failure_aborts_witness :
    ∃ e', runReferences boomEngine [-2] = .error e' :=
  C3_failure_aborts boomEngine [-2]
    ⟨-2, by simp, "boom", by simp [boomEngine]⟩

/-! ## Claim C4 -/

/-- Claim C4 counterexample: all four differing-power results identical
(the distinctness probe reports all-same), every result equal to its
reference — yet the overall verdict is true, because the distinctness
expectation only prints a warning and never enters the verdict. -/
theorem C4_counterexample :
    allSameGsnr ([rSame, rSame, rSame, rSame].map (fun r => r.avg_gsnr))
      = true ∧
    test_process_pool_verdict [rSame] rSame [rSame, rSame, rSame, rSame]
      [rSame, rSame, rSame, rSame] = true := by
  constructor
  · simp [allSameGsnr, rSame]
  · simp [test_process_pool_verdict, pp_matched, allclose, isClose, rSame,
      npRtol, processAtol]
    norm_num

/-- Claim C4, corrected: the overall verdict is the conjunction of the
same-parameters per-job matched checks and the differing-parameters per-job
reference-match checks; the pairwise-distinctness expectation is reported
only as a warning and does not affect the verdict. -/
theorem C4_verdict_iff (results : List SimResult) (reference : SimResult)
    (results_diff references_diff : List SimResult) :
    test_process_pool_verdict results reference results_diff references_diff
        = true ↔
      ((∀ r ∈ results, pp_matched r reference = true) ∧
       ∀ p ∈ results_diff.zip references_diff,
         allclose p.1.gsnr_values p.2.gsnr_values processAtol = true) := by
  simp [test_process_pool_verdict, List.all_eq_true]

/-- Witness for C4: the corrected characterisation applied to empty
batches. -/
theorem C4_verdict_iff_witness :
    test_process_pool_verdict [] rSame [] [] = true :=
  (C4_verdict_iff [] rSame [] []).mpr ⟨by simp, by simp⟩

/-! ## Claim C5 -/

/-- Claim C5 counterexample: a GSNR deviation of 1.5e-4 passes the thread
(shared-memory) verification yet fails the 1e-6 check, and the tolerance
the thread test passes to allclose is 1e-4, not 1e-6. -/
theorem C5_counterexample :
    thread_gsnr_match rC5 refC5 = true ∧
    allclose rC5.gsnr_values refC5.gsnr_values processAtol = false ∧
    threadAtol ≠ processAtol := by
  refine ⟨?_, ?_, by norm_num [threadAtol, processAtol]⟩
  · simp [thread_gsnr_match, rC5, refC5, allclose, isClose, threadAtol,
      npRtol, abs_le]
    norm_num
  · simp [rC5, refC5, allclose, isClose, processAtol, npRtol, abs_le]
    norm_num

/-- Claim C5, corrected: the process-pool verification uses atol 1e-6 while
the shared-memory (thread) verification uses atol 1e-4 on the GSNR series —
a strictly weaker check: any result passing the process-pool 1e-6 GSNR check
also passes the thread check. -/
theorem C5_thread_weaker (result reference : SimResult)
    (h : allclose result.gsnr_values reference.gsnr_values processAtol = true) :
    thread_gsnr_match result reference = true := by
  unfold thread_gsnr_match
  exact allclose_mono_atol (by norm_num [processAtol, threadAtol]) h

/-- Witness for C5: the corrected statement applied to a concrete pair that
passes the stricter check. -/
theorem C5_thread_weaker_witness : thread_gsnr_match rSame rSame = true :=
  C5_thread_weaker rSame rSame (by
    simp [rSame, allclose, isClose, processAtol, npRtol]
    norm_num)

/-! ## Claim C6 -/

/-- Claim C6 counterexample: with one worker that never returns and one
that finished, the collection loop never completes (the unbounded `join`
blocks forever) instead of delivering the finished result together with a
timeout outcome for the non-responder; removing the hung worker, the very
same collection completes. -/
theorem C6_counterexample :
    collectJoin [none, some (resultEntry rSame)] = none ∧
    collectJoin [some (resultEntry rSame)] = some [resultEntry rSame] := by
  constructor <;> simp [collectJoin]

/-- Claim C6, corrected: the harness sets no timeout anywhere — the thread
strategy joins each worker with `join()` (no timeout argument) and the
process strategy blocks in `pool.map` — so a batch is collected exactly
when every worker terminates; a single hanging worker blocks the whole
collection indefinitely and no timeout error outcome exists. -/
theorem C6_collect_iff (finished : List (Option Entry)) :
    (collectJoin finished).isSome = finished.all Option.isSome := by
  induction finished with
  | nil => simp [collectJoin]
  | cons x rest ih =>
    cases x with
    | none => simp [collectJoin]
    | some r => simp [collectJoin, ih]

/-! ## Claim C7 -/

/-- Claim C7, confirmed: for any single shared-memory task (no concurrent
interference), whenever both observation points exist — the store observed
immediately before the reset step and the store observed immediately after
the restore step — the two values are equal: the backup is deep-copied
before the reset and assigned back in the finally clause. -/
theorem C7_roundtrip (store0 : Store) (index : ℕ) (fails : Option WStep)
    (mutDesign mutSim : Store → Store) (res : SimResult) (msg : String)
    (s s2 : Store)
    (h1 : (threadWorker store0 index fails mutDesign mutSim res msg).storeBeforeReset
      = some s)
    (h2 : (threadWorker store0 index fails mutDesign mutSim res msg).storeAfterRestore
      = some s2) :
    s2 = s := by
  cases fails with
  | none => simp_all [threadWorker, threadWorkerTry]
  | some step => cases step <;> simp_all [threadWorker, threadWorkerTry]

/-- Witness for C7: a complete run on the store `[("k", 1)]` observes that
store before the reset and again after the restore. -/
theorem C7_roundtrip_witness :
    (threadWorker [("k", 1)] 0 none id id rSame "m").storeBeforeReset
      = some [("k", 1)] ∧
    (threadWorker [("k", 1)] 0 none id id rSame "m").storeAfterRestore
      = some [("k", 1)] ∧
    ([("k", 1)] : Store) = [("k", 1)] := by
  refine ⟨?_, ?_, ?_⟩
  · simp [threadWorker, threadWorkerTry]
  · simp [threadWorker, threadWorkerTry]
  · exact C7_roundtrip [("k", 1)] 0 none id id rSame "m" [("k", 1)] [("k", 1)]
      (by simp [threadWorker, threadWorkerTry])
      (by simp [threadWorker, threadWorkerTry])

/-! ## Claim C8 -/

/-- Claim C8, confirmed: when source and destination are not preset and the
network holds fewer than two transceivers, `benchmark_network` returns
early with its design and simulation timing lists still empty, whereas
`_run_single_simulation` unconditionally indexes the first two transceivers
and raises IndexError on such a network. -/
theorem C8_guard (network : List BNode) (cfg : BenchConfig)
    (eqptTime netTime : ℕ → ℚ) (designRun simRun : ℕ → Except String ℚ)
    (engine : String → String → Except String SimResult)
    (hs : cfg.source = none) ( _hdst : cfg.destination = none)
    (htrx : (find_transceivers network).length < 2) :
    (benchmark_network network cfg eqptTime netTime designRun simRun).network_design
      = [] ∧
    (benchmark_network network cfg eqptTime netTime designRun simRun).transmission_sim
      = [] ∧
    run_single_simulation network engine =
      .error "IndexError: list index out of range" := by
  have hrange : List.range NUM_RUNS = [0, 1, 2] := rfl
  have hcond : ((cfg.source.isNone || cfg.destination.isNone) &&
      decide ((find_transceivers network).length < 2)) = true := by
    simp [hs, htrx]
  have hbench :
      benchmark_network network cfg eqptTime netTime designRun simRun =
        benchGo network cfg eqptTime netTime designRun simRun [0, 1, 2]
          ⟨[], [], [], []⟩ := by
    rw [benchmark_network, hrange]
  refine ⟨?_, ?_, ?_⟩
  · rw [hbench]
    simp [benchGo, hcond]
  · rw [hbench]
    simp [benchGo, hcond]
  · rcases hT : find_transceivers network with _ | ⟨a, rest⟩
    · simp [run_single_simulation, hT]
    · rcases rest with _ | ⟨b, t⟩
      · simp [run_single_simulation, hT]
      · rw [hT] at htrx
        simp at htrx
        omega

/-- Witness for C8: a network with one transceiver and one fiber node. -/
theorem C8_guard_witness :
    (benchmark_network oneTrxNet ⟨none, none⟩ (fun _ => 1) (fun _ => 1)
      (fun _ => .ok 1) (fun _ => .ok 1)).network_design = [] ∧
    (benchmark_network oneTrxNet ⟨none, none⟩ (fun _ => 1) (fun _ => 1)
      (fun _ => .ok 1) (fun _ => .ok 1)).transmission_sim = [] ∧
    run_single_simulation oneTrxNet (fun _ _ => .ok rSame) =
      .error "IndexError: list index out of range" :=
  C8_guard oneTrxNet ⟨none, none⟩ (fun _ => 1) (fun _ => 1)
    (fun _ => .ok 1) (fun _ => .ok 1) (fun _ _ => .ok rSame) rfl rfl
    (by simp [find_transceivers, oneTrxNet])

/-! ## Claim C9 -/

/-- Claim C9, confirmed: every `_thread_worker` execution performs exactly
one write to the shared results registry, at its own index, inside the
lock, and the entry written is either the result mapping with keys
avg_gsnr, avg_osnr, gsnr_values, osnr_values or the error mapping with the
single key error. -/
theorem C9_registry_writes (store0 : Store) (index : ℕ) (fails : Option WStep)
    (mutDesign mutSim : Store → Store) (res : SimResult) (msg : String) :
    ∃ w : RegistryWrite,
      (threadWorker store0 index fails mutDesign mutSim res msg).writes = [w] ∧
      w.regIndex = index ∧ w.underLock = true ∧
      (w.entry.map Prod.fst =
          ["avg_gsnr", "avg_osnr", "gsnr_values", "osnr_values"] ∨
       w.entry.map Prod.fst = ["error"]) := by
  cases fails with
  | none =>
    exact ⟨⟨index, resultEntry res, true⟩,
      by simp [threadWorker, threadWorkerTry], rfl, rfl,
      Or.inl (by simp [resultEntry])⟩
  | some step =>
    cases step <;>
      exact ⟨⟨index, errorEntry msg, true⟩,
        by simp [threadWorker, threadWorkerTry], rfl, rfl,
        Or.inr (by simp [errorEntry])⟩

/-! ## Claim C10 -/

/-- Claim C10, confirmed: the formatter reports N/A exactly when the timing
list is empty or every entry is NaN, and its output is unchanged by
deleting the NaN entries — the mean and the spread are computed only over
the non-NaN entries. -/
theorem C10_fmt_nan (values : List (Option ℚ)) :
    (fmtTimes values = .na ↔ ∀ v ∈ values, v = none) ∧
    fmtTimes values = fmtTimes ((cleanTimes values).map some) := by
  have hclean : cleanTimes ((cleanTimes values).map some) = cleanTimes values := by
    simp [cleanTimes]
  have hna : fmtTimes values = .na ↔ cleanTimes values = [] := by
    by_cases hc : cleanTimes values = []
    · simp [fmtTimes, hc]
    · by_cases hlen : 1 < (cleanTimes values).length
      · simp [fmtTimes, hc, hlen]
      · simp [fmtTimes, hc, hlen]
  constructor
  · rw [hna, cleanTimes, List.filterMap_eq_nil_iff]
    simp
  · simp only [fmtTimes, hclean]

/-- Witness for C10: deleting the NaN entry of a two-entry timing list does
not change the formatted report. -/
theorem C10_fmt_nan_witness : fmtTimes [some 2, none] = fmtTimes [some 2] := by
  have h := (C10_fmt_nan [some 2, none]).2
  simpa [cleanTimes] using h
